import Mathlib

/-!
Shallow embedding of the browser-side RAG/chat client of this repository
(main page script: `renderRagDocs`, `fetchRagDocs`, `renderRagResults`,
`sendPrompt`, `fetchModels`, the top-K change handler; plus the variants in
`app/static/rag.js`).  DOM element state (input values, toggle checkbox,
message history, rendered lists) is made explicit as record fields; the
`localStorage` preference store is an association list; JS numbers that can
be NaN or infinite are an inductive type over ℚ.
-/

namespace WebUI

/-! ## JS primitives -/

/-- Whitespace characters removed by JS `String.prototype.trim` (the ASCII
ones; the sources only ever meet spaces, tabs and newlines). -/
def isJsWS (c : Char) : Bool :=
  c = ' ' || c = '\t' || c = '\n' || c = '\r' || c = '\x0b' || c = '\x0c'

/-- JS `value.trim()`: strip leading and trailing whitespace. -/
def jsTrim (s : String) : String :=
  String.mk (((s.data.dropWhile isJsWS).reverse.dropWhile isJsWS).reverse)

/-- JS `a || b` on strings where `a` may be `null`/`undefined`: the empty
string is falsy and falls through to `b`. -/
def jsOrS (a : Option String) (b : String) : String :=
  match a with
  | some s => if s = "" then b else s
  | none => b

/-- Accumulate a decimal digit list into a natural number. -/
def digitsToNat : List Char → Nat → Nat
  | [], acc => acc
  | c :: cs, acc => digitsToNat cs (acc * 10 + (c.toNat - '0'.toNat))

/-- JS `parseInt(s, 10)`: skip leading whitespace, read an optional sign and
then the longest prefix of decimal digits; `none` models NaN (no digits). -/
def jsParseInt (s : String) : Option Int :=
  let cs := s.data.dropWhile isJsWS
  let signed : Int × List Char :=
    match cs with
    | '-' :: r => (-1, r)
    | '+' :: r => (1, r)
    | r => (1, r)
  let digits := signed.2.takeWhile Char.isDigit
  if digits.isEmpty then none
  else some (signed.1 * (digitsToNat digits 0 : Int))

/-- A JS number as the sources use them: a finite rational, an infinity, or
NaN.  Scores arrive from JSON and may be any of these. -/
inductive JsNumber where
  | fin (q : ℚ)
  | posInf
  | negInf
  | nan
deriving DecidableEq, Repr

/-- Minimum of two rationals, written out so that it evaluates. -/
def rminQ (a b : ℚ) : ℚ := if a ≤ b then a else b

/-- Maximum of two rationals, written out so that it evaluates. -/
def rmaxQ (a b : ℚ) : ℚ := if a ≤ b then b else a

theorem rminQ_eq_min (a b : ℚ) : rminQ a b = min a b := by rw [rminQ, min_def]

theorem rmaxQ_eq_max (a b : ℚ) : rmaxQ a b = max a b := by rw [rmaxQ, max_def]

/-- JS `Math.min` on two numbers: NaN propagates, `-Infinity` absorbs. -/
def jsMin : JsNumber → JsNumber → JsNumber
  | .nan, _ => .nan
  | _, .nan => .nan
  | .negInf, _ => .negInf
  | _, .negInf => .negInf
  | .posInf, b => b
  | a, .posInf => a
  | .fin a, .fin b => .fin (rminQ a b)

/-- JS `Math.max` on two numbers: NaN propagates, `+Infinity` absorbs. -/
def jsMax : JsNumber → JsNumber → JsNumber
  | .nan, _ => .nan
  | _, .nan => .nan
  | .posInf, _ => .posInf
  | _, .posInf => .posInf
  | .negInf, b => b
  | a, .negInf => a
  | .fin a, .fin b => .fin (rmaxQ a b)

/-- JS `Math.round`: round half toward positive infinity, `⌊q + 1/2⌋`
(written with the executable `Rat.floor`). -/
def jsRound (q : ℚ) : Int := (q + 1 / 2).floor

theorem jsRound_eq_floor (q : ℚ) : jsRound q = ⌊q + 1 / 2⌋ := rfl

/-- Render the JS number `z / 10` the way JS stringifies it: an exact
integer prints with no decimal point, otherwise one decimal digit. -/
def formatTenths (z : Int) : String :=
  if z % 10 = 0 then toString (z / 10)
  else (if z < 0 then "-" else "") ++
    toString (z.natAbs / 10) ++ "." ++ toString (z.natAbs % 10)

/-! ## Preference Store (`localStorage` wrapper) -/

/-- The durable key-value store behind `getStoredItem`/`setStoredItem`,
modelled as an association list (most recent binding first). -/
def Store := List (String × String)

instance : Repr Store := inferInstanceAs (Repr (List (String × String)))

/-- The `getStoredItem` read: first binding for the key, `none` = `null`. -/
def getPref (st : Store) (key : String) : Option String :=
  (List.find? (fun p => p.1 = key) st).map (fun p => p.2)

/-- The `setStoredItem` write: bind `key` to `value`. -/
def setPref (st : Store) (key : String) (value : String) : Store :=
  (key, value) :: st

/-- Storage key `'ollama-webui:selected-model'`. -/
def modelKey : String := "ollama-webui:selected-model"

/-- Storage key `'ollama-webui:rag-enabled'`. -/
def ragEnabledKey : String := "ollama-webui:rag-enabled"

/-- Storage key `'ollama-webui:rag-top-k'`. -/
def ragTopKKey : String := "ollama-webui:rag-top-k"

theorem getPref_setPref (st : Store) (k v : String) :
    getPref (setPref st k v) k = some v := by
  simp [getPref, setPref, List.find?]

/-! ## Retrieval Display (`renderRagResults`) -/

/-- A retrieval result item `{text, score}` as received from JSON: either
field may be absent; `score`, when present as a number, may be NaN or
infinite.  A non-number `score` value never passes the `typeof` guard, so it
is collapsed into `none`. -/
structure RagItem where
  score : Option JsNumber
  text : Option String
deriving DecidableEq, Repr

/-- The argument `renderRagResults(items)` can be handed: an array, or any
non-array JS value (`undefined`, `null`, a string, a number, an object). -/
inductive RenderArg where
  | arr (items : List RagItem)
  | undef
  | nullv
  | str (s : String)
  | num (n : JsNumber)
  | obj
deriving Repr

/-- JS `Array.isArray` on a `RenderArg`. -/
def RenderArg.isArray : RenderArg → Bool
  | .arr _ => true
  | _ => false

/-- The DOM state of the `#ragResults` region: the rendered `(label, text)`
entries of its ordered list, and its `hidden` flag. -/
structure RagResultsState where
  entries : List (String × String)
  hidden : Bool
deriving DecidableEq, Repr

/-- The similarity part appended to an item's label: empty unless
`typeof item.score === 'number' && !Number.isNaN(item.score)`, in which case
the score is clamped by `Math.max(-1, Math.min(1, score))` and shown as
`Math.round(clamped * 1000) / 10` percent. -/
def scoreSuffix (score : Option JsNumber) : String :=
  match score with
  | some n =>
    if n = .nan then ""
    else
      match jsMax (.fin (-1)) (jsMin (.fin 1) n) with
      | .fin q => " • likhet " ++ formatTenths (jsRound (q * 1000)) ++ "%"
      | _ => ""
  | none => ""

/-- The `<strong>` header text of item number `idx` (0-based): the label
starts as `` `Utdrag ${idx + 1}` `` and the similarity suffix is appended. -/
def itemLabel (idx : Nat) (item : RagItem) : String :=
  "Utdrag " ++ toString (idx + 1) ++ scoreSuffix item.score

/-- The `items.forEach((item, idx) => ...)` loop: each list entry shows the
item's label and its text (`item.text || ''`). -/
def renderItems (idx : Nat) : List RagItem → List (String × String)
  | [] => []
  | item :: rest => (itemLabel idx item, jsOrS item.text "") :: renderItems (idx + 1) rest

/-- `renderRagResults(items)`: the list's `innerHTML` is cleared first; a
non-array or empty argument hides the region and returns; otherwise every
item is rendered and the region is unhidden.  The prior DOM state is passed
in to make explicit that it is fully replaced. -/
def renderRagResults (arg : RenderArg) (_prior : RagResultsState) : RagResultsState :=
  match arg with
  | .arr items =>
    if items.isEmpty then ⟨[], true⟩
    else ⟨renderItems 0 items, false⟩
  | _ => ⟨[], true⟩

/-! ## Top-K resolution -/

/-- The top-K value `sendPrompt` computes from the `#ragTopK` input:
`parseInt(ragTopKInput?.value || '3', 10)`, then NaN or anything below 1
falls back to 3, and anything above 10 is capped at 10.  `none` models an
absent input element (or `value` being `undefined`). -/
def resolveTopK (input : Option String) : Int :=
  let raw := jsOrS input "3"
  match jsParseInt raw with
  | none => 3
  | some n => if n < 1 then 3 else if n > 10 then 10 else n

/-- The `#ragTopK` change handler's normalization: `parseInt(value, 10)`
(no `|| '3'` default here), NaN or below 1 becomes 3, above 10 becomes 10. -/
def resolveTopKChange (value : String) : Int :=
  match jsParseInt value with
  | none => 3
  | some n => if n < 1 then 3 else if n > 10 then 10 else n

/-- The `#ragTopK` change handler: write the normalized value back into the
input and persist it under `ragTopKKey`. -/
def topKChangeHandler (value : String) (store : Store) : String × Store :=
  let v := resolveTopKChange value
  (toString v, setPref store ragTopKKey (toString v))

/-! ## Document Registry Client (`renderRagDocs`, `fetchRagDocs`) -/

/-- A knowledge-base document as the client receives it: only the fields
`renderRagDocs` reads.  `chunks` may be absent (then `doc.chunks || 0`
renders 0). -/
structure RagDoc where
  id : String
  preview : Option String
  chunks : Option Int
deriving DecidableEq, Repr

/-- The `/api/rag/docs` response body: `documents` is `none` when the field
is absent or not an array (the `Array.isArray` guard maps it to `[]`),
`chunk_count` is `none` when `Number(stats.chunk_count)` is falsy or NaN
(then `|| 0` yields 0). -/
structure RagPayload where
  documents : Option (List RagDoc)
  chunk_count : Option Int
  embedding_model : Option String
deriving Repr

/-- The `#ragToggle` checkbox: its `checked` and `disabled` DOM flags. -/
structure ToggleState where
  checked : Bool
  disabled : Bool
deriving DecidableEq, Repr

/-- One rendered `<li>` of the `#ragList`: the preview text
(`doc.preview || '[Tom text]'`) and the chunk-count line
(`` `${doc.chunks || 0} utdrag` ``). -/
structure RenderedDoc where
  preview : String
  chunksLine : String
deriving DecidableEq, Repr

/-- Build the `<li>` for one document, as the loop body of `renderRagDocs`
does. -/
def renderDoc (d : RagDoc) : RenderedDoc :=
  { preview := jsOrS d.preview "[Tom text]"
    chunksLine := toString (d.chunks.getD 0) ++ " utdrag" }

/-- Status severity classes applied by `setRagStatus`. -/
inductive StatusType where
  | info
  | error
  | success
deriving DecidableEq, Repr

/-- The `#ragStatus` element: its text and its severity class. -/
structure RagStatus where
  text : String
  type : StatusType
deriving DecidableEq, Repr

/-- The DOM and storage state the Document Registry Client touches. -/
structure DocPageState where
  ragList : List RenderedDoc
  toggle : ToggleState
  status : RagStatus
  embeddingModelText : String
  store : Store
deriving Repr

/-- The toggle block of `renderRagDocs` (the identical block also appears in
`renderRagSummary`): an empty document list forces the toggle off, disables
it and persists `'0'` under the RAG-enabled key; a non-empty list enables
the toggle and restores `checked` from the stored preference when one
exists. -/
def reconcileRagToggle (docs : List RagDoc) (t : ToggleState) (store : Store) :
    ToggleState × Store :=
  if docs.length = 0 then
    (⟨false, true⟩, setPref store ragEnabledKey "0")
  else
    let t1 : ToggleState := { t with disabled := false }
    match getPref store ragEnabledKey with
    | some s => ({ t1 with checked := s = "1" }, store)
    | none => (t1, store)

/-- The summary value `renderRagDocs` returns:
`{ count: docs.length, chunkCount }`. -/
structure RagSummary where
  count : Nat
  chunkCount : Int
deriving DecidableEq, Repr

/-- `renderRagDocs(payload)`: guard the payload fields, rebuild the
`#ragList` from scratch, reconcile the toggle with the document count, and
return the summary. -/
def renderRagDocs (payload : RagPayload) (st : DocPageState) :
    DocPageState × RagSummary :=
  let docs := payload.documents.getD []
  let chunkCount := payload.chunk_count.getD 0
  let modelText :=
    match payload.embedding_model with
    | some m => if m = "" then st.embeddingModelText else m
    | none => st.embeddingModelText
  let ts := reconcileRagToggle docs st.toggle st.store
  ({ st with
      ragList := docs.map renderDoc
      toggle := ts.1
      store := ts.2
      embeddingModelText := modelText },
    ⟨docs.length, chunkCount⟩)

/-- The success path of `fetchRagDocs`: render the payload, then set the
status to the override text if one was supplied, else to the derived
summary message. -/
def fetchRagDocsSuccess (payload : RagPayload) (statusOverride : Option RagStatus)
    (st : DocPageState) : DocPageState :=
  let r := renderRagDocs payload st
  let status :=
    match statusOverride with
    | some o => o
    | none =>
      if r.2.count = 0 then ⟨"Ingen text har lagts till ännu.", .info⟩
      else ⟨"Texter: " ++ toString r.2.count ++ " • " ++ toString r.2.chunkCount
        ++ " utdrag.", .info⟩
  { r.1 with status := status }

/-- The catch block of `fetchRagDocs` (main page script): surface the error
status with the failure reason, clear the rendered list, force the toggle
off and disable it.  `msg` is `e.message` — `'HTTP ' + res.status` for a
non-2xx response, or the transport error's message. -/
def fetchRagDocsFailure (msg : String) (st : DocPageState) : DocPageState :=
  { st with
      status := ⟨"Kunde inte hämta kunskapsbasen: " ++ msg, .error⟩
      ragList := []
      toggle := ⟨false, true⟩ }

/-! ## Model Selector (`fetchModels`) -/

/-- One `<option>` of the `#model` select: its `value` and its text. -/
structure ModelOption where
  value : String
  label : String
deriving DecidableEq, Repr

/-- The preferred model:
`getStoredItem(model) || window.DEFAULT_MODEL || 'llama3.2:1b'`. -/
def resolvePreferred (stored defaultModel : Option String) : String :=
  jsOrS stored (jsOrS defaultModel "llama3.2:1b")

/-- The success path of `fetchModels`: build the option list (a synthetic
"ej installerad än" entry when the server list is empty), append a
"(standard)" entry when the preferred model is not among the available
values, then set the select's value — which selects the preferred model iff
an option carries that value, else leaves the selection empty. -/
def fetchModelsSuccess (stored defaultModel : Option String)
    (models : List String) : List ModelOption × String :=
  let preferred := resolvePreferred stored defaultModel
  let base :=
    if models.isEmpty then [⟨preferred, preferred ++ " (ej installerad än)"⟩]
    else models.map (fun m => ⟨m, m⟩)
  let available := if models.isEmpty then [preferred] else models
  let opts :=
    if preferred ∈ available then base
    else base ++ [⟨preferred, preferred ++ " (standard)"⟩]
  let selection := if preferred ∈ opts.map ModelOption.value then preferred else ""
  (opts, selection)

/-! ## Chat Session Controller (`sendPrompt`) -/

/-- A chat message role. -/
inductive Role where
  | system
  | user
  | assistant
deriving DecidableEq, Repr

/-- A message of the conversation history (`addMsg` appends these). -/
structure ChatMsg where
  role : Role
  text : String
deriving DecidableEq, Repr

/-- The body `sendPrompt` posts to `/api/chat` (temperature is passed
through from a numeric control and carries no logic; it is omitted here). -/
structure ChatRequest where
  model : String
  messages : List ChatMsg
  useRag : Bool
  ragTopK : Option Int
deriving DecidableEq, Repr

/-- The DOM and storage state `sendPrompt` reads and writes before its
network call. -/
structure ChatState where
  promptValue : String
  topKInput : Option String
  toggle : Option ToggleState
  modelValue : String
  defaultModel : Option String
  history : List ChatMsg
  ragResults : RagResultsState
  store : Store
deriving Repr

/-- The fixed system instruction `sendPrompt` puts first in `messages`. -/
def systemMsg : ChatMsg :=
  ⟨.system, "Du är en hjälpsam AI som svarar på flytande svenska. Var tydlig och kortfattad."⟩

/-- `sendPrompt()` up to the `fetch` call: resolve the model and the top-K
(writing the clamped top-K back into the input when the element exists),
read the toggle, and bail out before touching the history when the trimmed
prompt is empty; otherwise append the user message, clear the prompt and
the retrieval results, and issue the request (`use_rag`/`rag_top_k` only
when the toggle is enabled and checked).  The second component is the
request handed to `fetch`, `none` when no network call happens. -/
def sendPrompt (st : ChatState) : ChatState × Option ChatRequest :=
  let model := jsOrS (some st.modelValue) (resolvePreferred none st.defaultModel)
  let ragTopK := resolveTopK st.topKInput
  let st1 := { st with topKInput := st.topKInput.map (fun _ => toString ragTopK) }
  let useRag :=
    match st1.toggle with
    | some t => !t.disabled && t.checked
    | none => false
  let userText := jsTrim st1.promptValue
  if userText = "" then (st1, none)
  else
    ({ st1 with
        history := st1.history ++ [⟨.user, userText⟩]
        promptValue := ""
        ragResults := renderRagResults (.arr []) st1.ragResults },
      some
        { model := model
          messages := [systemMsg, ⟨.user, userText⟩]
          useRag := useRag
          ragTopK := if useRag then some ragTopK else none })

/-! ## Supporting lemmas -/

theorem jsParseInt_empty : jsParseInt "" = none := rfl

theorem renderItems_length (k : Nat) (items : List RagItem) :
    (renderItems k items).length = items.length := by
  induction items generalizing k with
  | nil => rfl
  | cons item rest ih => simp [renderItems, ih]

theorem renderItems_get? (k : Nat) (items : List RagItem) (i : Nat) :
    (renderItems k items).get? i
      = (items.get? i).map (fun item => (itemLabel (k + i) item, jsOrS item.text "")) := by
  induction items generalizing k i with
  | nil => simp [renderItems]
  | cons item rest ih =>
    cases i with
    | zero => simp [renderItems]
    | succ j =>
      simp only [renderItems, List.get?_cons_succ, ih (k + 1) j]
      have hkj : k + 1 + j = k + (j + 1) := by omega
      rw [hkj]

/-- The mathematical clamp of a score to `[-1, 1]`: `max (-1) (min 1 q)` on
finite values, extended to the infinities the way `Math.max`/`Math.min`
send them into the interval.  This is the spec-side formula the rendered
percentage is compared against. -/
def clampScore : JsNumber → ℚ
  | .fin q => max (-1) (min 1 q)
  | .posInf => 1
  | .negInf => -1
  | .nan => 0

theorem clamp_eq_fin (n : JsNumber) (h : n ≠ .nan) :
    jsMax (.fin (-1)) (jsMin (.fin 1) n) = .fin (clampScore n) := by
  cases n with
  | fin q =>
    simp only [jsMin, jsMax, rminQ_eq_min, rmaxQ_eq_max, clampScore]
  | posInf =>
    simp only [jsMin, jsMax, rmaxQ_eq_max, clampScore]
    norm_num
  | negInf => rfl
  | nan => exact absurd rfl h

/-! ## Claim theorems -/

/-- C1: after every successful list/add/delete/clear cycle (all of which
end in `fetchRagDocs` rendering a fresh snapshot), an empty document list
leaves the retrieval toggle disabled and unchecked with `'0'` persisted
under the RAG-enabled key, and a non-empty list leaves the toggle enabled
with its checked state restored from the stored preference when one exists
and untouched (never forced on) otherwise. -/
theorem C1_toggle_invariant (payload : RagPayload) (statusOverride : Option RagStatus)
    (st : DocPageState) :
    (payload.documents.getD [] = [] →
      (fetchRagDocsSuccess payload statusOverride st).toggle.disabled = true ∧
      (fetchRagDocsSuccess payload statusOverride st).toggle.checked = false ∧
      getPref (fetchRagDocsSuccess payload statusOverride st).store ragEnabledKey
        = some "0") ∧
    (payload.documents.getD [] ≠ [] →
      (fetchRagDocsSuccess payload statusOverride st).toggle.disabled = false ∧
      (∀ s, getPref st.store ragEnabledKey = some s →
        ((fetchRagDocsSuccess payload statusOverride st).toggle.checked = true ↔ s = "1")) ∧
      (getPref st.store ragEnabledKey = none →
        (fetchRagDocsSuccess payload statusOverride st).toggle.checked
          = st.toggle.checked)) := by
  constructor
  · intro hdocs
    simp only [fetchRagDocsSuccess, renderRagDocs, reconcileRagToggle, hdocs,
      List.length_nil, if_pos rfl]
    exact ⟨rfl, rfl, getPref_setPref _ _ _⟩
  · intro hdocs
    have hlen : (payload.documents.getD []).length ≠ 0 := by
      simpa [List.length_eq_zero] using hdocs
    simp only [fetchRagDocsSuccess, renderRagDocs, reconcileRagToggle, if_neg hlen]
    cases hst : getPref st.store ragEnabledKey with
    | none => simp
    | some s =>
      refine ⟨rfl, ?_, ?_⟩
      · intro s' hs'
        injection hs' with hss
        subst hss
        simp
      · intro hnone
        exact Option.noConfusion hnone

theorem C1_toggle_invariant_witness :
    getPref (fetchRagDocsSuccess ⟨some [], some 0, none⟩ none
      ⟨[], ⟨true, false⟩, ⟨"", .info⟩, "", []⟩).store ragEnabledKey = some "0" :=
  ((C1_toggle_invariant ⟨some [], some 0, none⟩ none
      ⟨[], ⟨true, false⟩, ⟨"", .info⟩, "", []⟩).1 rfl).2.2

/-- C2: the top-K applied at send-time is the parsed input clamped to
`[1, 10]` when it parses to an integer at least 1, and the default 3 when
the input is absent or does not parse to a number; the request `sendPrompt`
issues carries exactly this resolved value when retrieval is on. -/
theorem C2_topk_clamping :
    (∀ s v, jsParseInt s = some v → 1 ≤ v →
      resolveTopK (some s) = min 10 (max 1 v)) ∧
    resolveTopK none = 3 ∧
    (∀ s, jsParseInt s = none → resolveTopK (some s) = 3) ∧
    (∀ st st1 req, sendPrompt st = (st1, some req) → req.useRag = true →
      req.ragTopK = some (resolveTopK st.topKInput)) := by
  refine ⟨?_, rfl, ?_, ?_⟩
  · intro s v hparse hv
    have hs : s ≠ "" := by
      intro h
      rw [h, jsParseInt_empty] at hparse
      exact Option.noConfusion hparse
    simp only [resolveTopK, jsOrS, if_neg hs, hparse]
    rcases lt_or_le (10 : Int) v with h10 | h10
    · rw [if_neg (by omega), if_pos h10]
      omega
    · rw [if_neg (by omega), if_neg (by omega)]
      omega
  · intro s hparse
    by_cases hs : s = ""
    · subst hs
      rfl
    · simp [resolveTopK, jsOrS, if_neg hs, hparse]
  · intro st st1 req hsend hrag
    simp only [sendPrompt] at hsend
    split at hsend
    · simp at hsend
    · have hreq := congrArg Prod.snd hsend
      simp only at hreq
      injection hreq with hreq
      subst hreq
      simp only at hrag ⊢
      rw [if_pos hrag]

theorem C2_topk_clamping_witness :
    resolveTopK (some "20") = min 10 (max 1 20) ∧ resolveTopK (some "abc") = 3 :=
  ⟨C2_topk_clamping.1 "20" 20 (by decide) (by decide),
   C2_topk_clamping.2.2.1 "abc" (by decide)⟩

/-- C3 counterexample: the code's guard is only
`typeof score === 'number' && !Number.isNaN(score)`, so a score of
`Infinity` is NOT omitted — it is clamped to 1 and rendered as `100%`,
contradicting the claim that the annotation is omitted for every
non-finite score. -/
theorem C3_counterexample :
    renderRagResults (.arr [⟨some .posInf, some "x"⟩]) ⟨[], true⟩
      = ⟨[("Utdrag 1 • likhet 100%", "x")], false⟩ ∧
    scoreSuffix (some .posInf) ≠ "" := by
  constructor
  · with_unfolding_all rfl
  · have he : scoreSuffix (some .posInf) = " • likhet 100%" := by
      with_unfolding_all rfl
    rw [he]
    decide

/-- C3 amended: the similarity percentage shown equals
`round(clamp(score, -1, 1) * 1000) / 10` — with the clamp sending
`+Infinity` to 1 and `-Infinity` to -1 — for every score that is a number
other than NaN; and the annotation is omitted exactly when the score is
NaN, absent, or non-numeric (±Infinity is shown as ±100%, not omitted). -/
theorem C3_amended :
    (∀ sc, scoreSuffix sc = "" ↔ (sc = none ∨ sc = some .nan)) ∧
    (∀ n, n ≠ .nan →
      scoreSuffix (some n)
        = " • likhet " ++ formatTenths (jsRound (clampScore n * 1000)) ++ "%") ∧
    (∀ idx item,
      itemLabel idx item = "Utdrag " ++ toString (idx + 1) ++ scoreSuffix item.score) := by
  have hshape : ∀ n : JsNumber, n ≠ .nan →
      scoreSuffix (some n)
        = " • likhet " ++ formatTenths (jsRound (clampScore n * 1000)) ++ "%" := by
    intro n hn
    simp only [scoreSuffix, if_neg hn, clamp_eq_fin n hn]
  refine ⟨?_, hshape, fun idx item => rfl⟩
  intro sc
  constructor
  · intro hempty
    cases sc with
    | none => exact Or.inl rfl
    | some n =>
      by_cases hn : n = .nan
      · exact Or.inr (by rw [hn])
      · rw [hshape n hn] at hempty
        have hlen := congrArg String.length hempty
        rw [String.length_append, String.length_append] at hlen
        have h1 : (" • likhet ").length = 10 := rfl
        have h2 : ("%").length = 1 := rfl
        have h3 : ("").length = 0 := rfl
        omega
  · rintro (h | h) <;> rw [h] <;> rfl

theorem C3_amended_witness :
    scoreSuffix none = "" ∧
    scoreSuffix (some (.fin (957 / 1000)))
      = " • likhet " ++ formatTenths (jsRound (clampScore (.fin (957 / 1000)) * 1000)) ++ "%" ∧
    scoreSuffix (some (.fin (957 / 1000))) = " • likhet 95.7%" :=
  ⟨(C3_amended.1 none).2 (Or.inl rfl),
   C3_amended.2.1 (.fin (957 / 1000)) (by decide),
   by with_unfolding_all rfl⟩

/-- C4 counterexample: a send from a state whose top-K input holds `"20"`
and whose store is empty writes the clamped `"10"` back into the input but
leaves the store without any top-K binding — `sendPrompt` never calls the
storage setter, so the clamped value is NOT persisted on send. -/
theorem C4_counterexample :
    (sendPrompt ⟨"hej", some "20", none, "m", none, [], ⟨[], true⟩, []⟩).1.topKInput
      = some "10" ∧
    getPref (sendPrompt ⟨"hej", some "20", none, "m", none, [], ⟨[], true⟩, []⟩).1.store
      ragTopKKey = none := by
  constructor
  · with_unfolding_all rfl
  · with_unfolding_all rfl

/-- C4 amended: on every send the clamped top-K value is written back into
the input control, but the Preference Store is left untouched by send;
the top-K preference is persisted only by the input's change handler,
which normalizes the value the same way and stores it. -/
theorem C4_amended (st : ChatState) (v : String) (hv : st.topKInput = some v) :
    (sendPrompt st).1.topKInput = some (toString (resolveTopK (some v))) ∧
    (sendPrompt st).1.store = st.store ∧
    (∀ value store,
      (topKChangeHandler value store).1 = toString (resolveTopKChange value) ∧
      getPref (topKChangeHandler value store).2 ragTopKKey
        = some (toString (resolveTopKChange value))) := by
  refine ⟨?_, ?_, ?_⟩
  · simp only [sendPrompt]
    split <;> simp [hv]
  · simp only [sendPrompt]
    split <;> rfl
  · intro value store
    exact ⟨rfl, getPref_setPref _ _ _⟩

theorem C4_amended_witness :
    (sendPrompt ⟨"hej", some "20", none, "m", none, [], ⟨[], true⟩, []⟩).1.topKInput
      = some (toString (resolveTopK (some "20"))) ∧
    (sendPrompt ⟨"hej", some "20", none, "m", none, [], ⟨[], true⟩, []⟩).1.store = [] :=
  ⟨(C4_amended ⟨"hej", some "20", none, "m", none, [], ⟨[], true⟩, []⟩ "20" rfl).1,
   (C4_amended ⟨"hej", some "20", none, "m", none, [], ⟨[], true⟩, []⟩ "20" rfl).2.1⟩

/-- C5: `fetchModels` resolves the preferred model as the stored preference
(when non-empty) else the configured default; an empty server list yields
exactly the one synthetic option valued at the preferred model with the
"ej installerad än" ("not installed") label, a non-empty list missing the
preferred model yields the listed options plus one extra "(standard)"
("default") option valued at the preferred model, and in both cases the
resulting selection is the preferred model. -/
theorem C5_model_fallback (stored defaultModel : Option String) (models : List String) :
    ((models = [] →
      (fetchModelsSuccess stored defaultModel models).1
        = [⟨resolvePreferred stored defaultModel,
            resolvePreferred stored defaultModel ++ " (ej installerad än)"⟩] ∧
      (fetchModelsSuccess stored defaultModel models).2
        = resolvePreferred stored defaultModel) ∧
    (models ≠ [] → resolvePreferred stored defaultModel ∉ models →
      (fetchModelsSuccess stored defaultModel models).1
        = models.map (fun m => ⟨m, m⟩)
            ++ [⟨resolvePreferred stored defaultModel,
                 resolvePreferred stored defaultModel ++ " (standard)"⟩] ∧
      (fetchModelsSuccess stored defaultModel models).2
        = resolvePreferred stored defaultModel)) ∧
    (∀ s, stored = some s → s ≠ "" → resolvePreferred stored defaultModel = s) ∧
    (stored = none → ∀ d, defaultModel = some d → d ≠ "" →
      resolvePreferred stored defaultModel = d) := by
  refine ⟨⟨?_, ?_⟩, ?_, ?_⟩
  · intro hm
    subst hm
    simp [fetchModelsSuccess]
  · intro hne hnotin
    have hempty : models.isEmpty = false := by
      cases models with
      | nil => exact absurd rfl hne
      | cons a l => rfl
    simp only [fetchModelsSuccess, hempty, Bool.false_eq_true, if_false]
    rw [if_neg hnotin]
    constructor
    · rfl
    · rw [if_pos]
      simp [List.map_append, List.map_map]
  · intro s hs hne
    simp [resolvePreferred, jsOrS, hs, hne]
  · intro hs d hd hne
    simp [resolvePreferred, jsOrS, hs, hd, hne]

theorem C5_model_fallback_witness :
    (fetchModelsSuccess (some "m1") none []).1
      = [⟨"m1", "m1" ++ " (ej installerad än)"⟩] ∧
    (fetchModelsSuccess (some "m1") none ["a", "b"]).1
      = [⟨"a", "a"⟩, ⟨"b", "b"⟩] ++ [⟨"m1", "m1" ++ " (standard)"⟩] ∧
    (fetchModelsSuccess (some "m1") none ["a", "b"]).2 = "m1" := by
  refine ⟨?_, ?_, ?_⟩
  · have h := (C5_model_fallback (some "m1") none []).1.1 rfl
    rw [h.1]
    rfl
  · have h := (C5_model_fallback (some "m1") none ["a", "b"]).1.2 (by decide) (by decide)
    rw [h.1]
    rfl
  · have h := (C5_model_fallback (some "m1") none ["a", "b"]).1.2 (by decide) (by decide)
    rw [h.2]
    rfl

/-- C6: rendering an absent (`undefined`) or empty sequence hides the
retrieval-results region entirely and clears its list; a non-empty sequence
is rendered unhidden as an ordered list whose entry `i` (0-based) is
labeled "Utdrag (i+1)" plus the optional similarity suffix — so an item
without a score shows no percentage — and the result never depends on the
prior render state (full replacement). -/
theorem C6_retrieval_display (p : RagResultsState) :
    renderRagResults .undef p = ⟨[], true⟩ ∧
    renderRagResults (.arr []) p = ⟨[], true⟩ ∧
    (∀ items, items ≠ [] →
      (renderRagResults (.arr items) p).hidden = false ∧
      ∀ i, (renderRagResults (.arr items) p).entries.get? i
        = (items.get? i).map (fun item =>
            ("Utdrag " ++ toString (i + 1) ++ scoreSuffix item.score,
             jsOrS item.text ""))) ∧
    (∀ a p', renderRagResults a p = renderRagResults a p') ∧
    (∀ idx item, item.score = none →
      itemLabel idx item = "Utdrag " ++ toString (idx + 1)) := by
  refine ⟨rfl, rfl, ?_, ?_, ?_⟩
  · intro items hne
    have hempty : items.isEmpty = false := by
      cases items with
      | nil => exact absurd rfl hne
      | cons a l => rfl
    constructor
    · simp [renderRagResults, hempty]
    · intro i
      simp only [renderRagResults, hempty, Bool.false_eq_true, if_false]
      rw [renderItems_get? 0 items i]
      simp [itemLabel]
  · intro a p'
    cases a <;> rfl
  · intro idx item hsc
    simp [itemLabel, hsc, scoreSuffix]

theorem C6_retrieval_display_witness :
    (renderRagResults (.arr [⟨none, some "a"⟩]) ⟨[("old", "o")], false⟩).hidden = false ∧
    (renderRagResults (.arr [⟨none, some "a"⟩]) ⟨[("old", "o")], false⟩).entries
      = [("Utdrag 1", "a")] :=
  ⟨((C6_retrieval_display ⟨[("old", "o")], false⟩).2.2.1 [⟨none, some "a"⟩]
      (by decide)).1,
   by with_unfolding_all rfl⟩

/-- C7: the catch branch of `fetchRagDocs` (reached on every non-2xx
response or transport error, with `msg` the failure reason carried by the
thrown error) clears the rendered document list, disables the retrieval
toggle and forces it off, and sets an error status whose text contains the
failure reason; being a total function of the page state, it throws
nothing past this boundary. -/
theorem C7_list_failure (msg : String) (st : DocPageState) :
    (fetchRagDocsFailure msg st).ragList = [] ∧
    (fetchRagDocsFailure msg st).toggle.disabled = true ∧
    (fetchRagDocsFailure msg st).toggle.checked = false ∧
    (fetchRagDocsFailure msg st).status.type = .error ∧
    ∃ pre, (fetchRagDocsFailure msg st).status.text = pre ++ msg :=
  ⟨rfl, rfl, rfl, rfl, ⟨"Kunde inte hämta kunskapsbasen: ", rfl⟩⟩

/-- C8: a send whose trimmed prompt text is empty issues no network
request and leaves the message history untouched — no user message and no
assistant message is appended. -/
theorem C8_empty_send_noop (st : ChatState) (h : jsTrim st.promptValue = "") :
    (sendPrompt st).2 = none ∧ (sendPrompt st).1.history = st.history := by
  simp only [sendPrompt]
  split
  · exact ⟨rfl, rfl⟩
  · rename_i hne
    exact absurd h hne

theorem C8_empty_send_noop_witness :
    jsTrim "   " = "" ∧
    (sendPrompt ⟨"   ", some "5", none, "m", none, [], ⟨[], true⟩, []⟩).2 = none ∧
    (sendPrompt ⟨"   ", some "5", none, "m", none, [], ⟨[], true⟩, []⟩).1.history = [] :=
  ⟨by decide,
   (C8_empty_send_noop ⟨"   ", some "5", none, "m", none, [], ⟨[], true⟩, []⟩
      (by decide)).1,
   (C8_empty_send_noop ⟨"   ", some "5", none, "m", none, [], ⟨[], true⟩, []⟩
      (by decide)).2⟩

/-- C9: a send with all-whitespace prompt text is not a complete no-op —
before the empty-text check it still resolves the top-K value and writes
the clamped result back into the top-K input control, while appending no
message and issuing no request; so the control's value can change (e.g.
from "20" to "10", as the witness shows). -/
theorem C9_empty_send_topk_writeback (st : ChatState) (v : String)
    (hv : st.topKInput = some v) (h : jsTrim st.promptValue = "") :
    (sendPrompt st).1.topKInput = some (toString (resolveTopK (some v))) ∧
    (sendPrompt st).2 = none ∧
    (sendPrompt st).1.history = st.history := by
  simp only [sendPrompt]
  split
  · exact ⟨by simp [hv], rfl, rfl⟩
  · rename_i hne
    exact absurd h hne

theorem C9_empty_send_topk_writeback_witness :
    (sendPrompt ⟨"   ", some "20", none, "m", none, [], ⟨[], true⟩, []⟩).1.topKInput
      = some (toString (resolveTopK (some "20"))) ∧
    (sendPrompt ⟨"   ", some "20", none, "m", none, [], ⟨[], true⟩, []⟩).2 = none ∧
    toString (resolveTopK (some "20")) = "10" ∧ "10" ≠ "20" :=
  ⟨(C9_empty_send_topk_writeback ⟨"   ", some "20", none, "m", none, [], ⟨[], true⟩, []⟩
      "20" rfl (by decide)).1,
   (C9_empty_send_topk_writeback ⟨"   ", some "20", none, "m", none, [], ⟨[], true⟩, []⟩
      "20" rfl (by decide)).2.1,
   by decide, by decide⟩

/-- C10: `renderRagResults` is total over arbitrary JS arguments, and every
non-array argument (string, number, object, null, undefined) behaves
exactly as the empty sequence: the list is cleared, the region hidden, and
the call returns normally. -/
theorem C10_render_nonarray_total (a : RenderArg) (p : RagResultsState)
    (h : a.isArray = false) :
    renderRagResults a p = ⟨[], true⟩ ∧
    renderRagResults a p = renderRagResults (.arr []) p := by
  cases a with
  | arr items => simp [RenderArg.isArray] at h
  | undef => exact ⟨rfl, rfl⟩
  | nullv => exact ⟨rfl, rfl⟩
  | str s => exact ⟨rfl, rfl⟩
  | num n => exact ⟨rfl, rfl⟩
  | obj => exact ⟨rfl, rfl⟩

theorem C10_render_nonarray_total_witness :
    (RenderArg.str "x").isArray = false ∧
    renderRagResults (.str "x") ⟨[("a", "b")], false⟩ = ⟨[], true⟩ :=
  ⟨rfl, (C10_render_nonarray_total (.str "x") ⟨[("a", "b")], false⟩ rfl).1⟩

end WebUI
